import Mathlib

/-!
Verification development for the nrental owning-reference crate
(src/lib.rs). The crate provides an owning container bundling an owner
with a lifetime-erased reference into data reachable from the owner.

The embedding has two layers:

1. A type-level layer mirroring the trait system: which types implement
   RefClass (lib.rs lines 33-60 and the tuple impls at 62-114), which
   implement the SharedRef marker (lines 25, 43, 93), and the associated
   reference types RefMut and RefConst of each erased class.

2. A value-level layer mirroring the runtime behaviour: erased forms are
   addresses, reborrowing reconstitutes references at those addresses,
   and the container operations new, new_shared, map, try_map, borrow and
   into_owner from lib.rs lines 116-265 are translated directly. Drop
   bookkeeping is made explicit as event traces so that the teardown and
   abnormal-exit claims can be stated.
-/

namespace Nrental

/-! Type-level model of the trait system. -/

/-- Pointee types: an opaque base type, or a Rust tuple type of pointees.
Tuples of types appear as the pointee of the SharedRef impl for
raw mut pointers to tuples at lib.rs line 93. -/
inductive Ty where
  | base : Nat → Ty
  | tuple : List Ty → Ty

/-- The lifetime-erased reference classes. From the HasRefClass impls in
lib.rs: a shared reference erases to a const raw pointer (lines 27-32), a
mutable reference erases to a mut raw pointer (lines 45-50), and a tuple
of references erases elementwise to a tuple of classes (lines 64-74). -/
inductive ClassTy where
  | constPtr : Ty → ClassTy
  | mutPtr : Ty → ClassTy
  | tupleC : List ClassTy → ClassTy

/-- Reference types: a shared reference, a mutable reference, or a tuple
of references. These are the associated types RefMut and RefConst range
over. -/
inductive RefTy where
  | sharedR : Ty → RefTy
  | mutR : Ty → RefTy
  | tupleR : List RefTy → RefTy

mutual

/-- Whether a class type has a RefClass impl. Single raw pointers always
do (lib.rs lines 33-42 and 51-60); a tuple of classes does when every
element does and the arity is between 1 and 16, the arities generated by
the tuple_impls macro invocation at lib.rs lines 97-114. -/
def RefClass : ClassTy → Bool
  | ClassTy.constPtr _ => true
  | ClassTy.mutPtr _ => true
  | ClassTy.tupleC cs => decide (1 ≤ cs.length ∧ cs.length ≤ 16) && RefClassList cs

/-- Elementwise RefClass over the components of a tuple class. -/
def RefClassList : List ClassTy → Bool
  | [] => true
  | c :: cs => RefClass c && RefClassList cs

end

/-- Whether a class type has a SharedRef impl, read off the impls in
lib.rs exactly: every const raw pointer has one (line 43), and a mut raw
pointer whose pointee is a tuple type of arity 1 to 16 has one (line 93,
inside the tuple_impls macro). No tuple of classes has one, and no other
mut raw pointer has one. -/
def SharedRef : ClassTy → Bool
  | ClassTy.constPtr _ => true
  | ClassTy.mutPtr (Ty.tuple ts) => decide (1 ≤ ts.length ∧ ts.length ≤ 16)
  | ClassTy.mutPtr _ => false
  | ClassTy.tupleC _ => false

mutual

/-- The origin classification induced by the HasRefClass impls: a const
raw pointer erases a shared reference (lib.rs lines 27-32), a mut raw
pointer erases a mutable reference (lines 45-50), and a tuple class
erases a tuple of references elementwise (lines 64-74). A form is
shared-origin when it erases only shared references, the recursive
classification of spec section 4.3. -/
def sharedOrigin : ClassTy → Bool
  | ClassTy.constPtr _ => true
  | ClassTy.mutPtr _ => false
  | ClassTy.tupleC cs => sharedOriginList cs

/-- Elementwise shared-origin over the components of a tuple class. -/
def sharedOriginList : List ClassTy → Bool
  | [] => true
  | c :: cs => sharedOrigin c && sharedOriginList cs

end

mutual

/-- The associated type RefMut of a RefClass: what reborrow_mut returns.
For a const raw pointer it is a shared reference (lib.rs line 34), for a
mut raw pointer a mutable reference (line 52), and for a tuple class the
tuple of elementwise RefMut types (line 79). -/
def RefMut : ClassTy → RefTy
  | ClassTy.constPtr t => RefTy.sharedR t
  | ClassTy.mutPtr t => RefTy.mutR t
  | ClassTy.tupleC cs => RefTy.tupleR (RefMutList cs)

/-- Elementwise RefMut over the components of a tuple class. -/
def RefMutList : List ClassTy → List RefTy
  | [] => []
  | c :: cs => RefMut c :: RefMutList cs

end

mutual

/-- The associated type RefConst of a RefClass: what reborrow_const
returns. A shared reference for both single pointers (lib.rs lines 35
and 53) and the tuple of elementwise RefConst types for tuples
(line 80). -/
def RefConst : ClassTy → RefTy
  | ClassTy.constPtr t => RefTy.sharedR t
  | ClassTy.mutPtr t => RefTy.sharedR t
  | ClassTy.tupleC cs => RefTy.tupleR (RefConstList cs)

/-- Elementwise RefConst over the components of a tuple class. -/
def RefConstList : List ClassTy → List RefTy
  | [] => []
  | c :: cs => RefConst c :: RefConstList cs

end

mutual

/-- Whether a reference type grants mutable (exclusive) access anywhere:
it is a mutable reference, or a tuple one of whose elements does. -/
def containsMut : RefTy → Bool
  | RefTy.sharedR _ => false
  | RefTy.mutR _ => true
  | RefTy.tupleR rs => containsMutList rs

/-- Elementwise containsMut over the components of a tuple reference. -/
def containsMutList : List RefTy → Bool
  | [] => false
  | r :: rs => containsMut r || containsMutList rs

end

/-- Availability of OwningRef::as_owner for a stored class T: the method
lives in an impl block with no RefClass bound and carries the bound
T: SharedRef (lib.rs lines 258-264). -/
def asOwnerCallable (c : ClassTy) : Bool := SharedRef c

/-- Availability of OwningRef::borrow_mut for a stored class T: the
method lives in the impl block bounded by T: RefClass (lib.rs lines
151-153 and 227-230), with no further restriction. -/
def borrowMutCallable (c : ClassTy) : Bool := RefClass c

/-! Value-level model of the runtime behaviour. Erased forms and
reconstituted references carry the address they point at, so pointer
equality is equality of these values. -/

/-- A runtime erased form: a const raw pointer to an address, a mut raw
pointer to an address, or a tuple of erased forms. -/
inductive EForm where
  | constPtr : Nat → EForm
  | mutPtr : Nat → EForm
  | tupleE : List EForm → EForm

/-- A runtime reference value: a shared reference to an address, a
mutable reference to an address, or a tuple of references. -/
inductive RVal where
  | shared : Nat → RVal
  | mutRef : Nat → RVal
  | tupleV : List RVal → RVal

mutual

/-- Runtime behaviour of reborrow_mut: a const raw pointer reborrows to
a shared reference at the same address (lib.rs lines 36-38, the impl for
const pointers returns a shared reference), a mut raw pointer to a
mutable reference at the same address (lines 54-56), and a tuple
elementwise (lines 82-86). -/
def reborrowMut : EForm → RVal
  | EForm.constPtr a => RVal.shared a
  | EForm.mutPtr a => RVal.mutRef a
  | EForm.tupleE es => RVal.tupleV (reborrowMutList es)

/-- Elementwise reborrow_mut over the slots of a tuple erased form. -/
def reborrowMutList : List EForm → List RVal
  | [] => []
  | e :: es => reborrowMut e :: reborrowMutList es

end

mutual

/-- Runtime behaviour of reborrow_const: both single pointers reborrow
to a shared reference at the same address (lib.rs lines 39-41 and
57-59), and a tuple elementwise (lines 87-91). -/
def reborrowConst : EForm → RVal
  | EForm.constPtr a => RVal.shared a
  | EForm.mutPtr a => RVal.shared a
  | EForm.tupleE es => RVal.tupleV (reborrowConstList es)

/-- Elementwise reborrow_const over the slots of a tuple erased form. -/
def reborrowConstList : List EForm → List RVal
  | [] => []
  | e :: es => reborrowConst e :: reborrowConstList es

end

mutual

/-- Runtime behaviour of into_class, the erasure step: a shared
reference erases to a const raw pointer at the same address (lib.rs
lines 29-31), a mutable reference to a mut raw pointer (lines 47-49),
and a tuple elementwise (lines 69-73). -/
def intoClass : RVal → EForm
  | RVal.shared a => EForm.constPtr a
  | RVal.mutRef a => EForm.mutPtr a
  | RVal.tupleV rs => EForm.tupleE (intoClassList rs)

/-- Elementwise into_class over the slots of a tuple reference. -/
def intoClassList : List RVal → List EForm
  | [] => []
  | r :: rs => intoClass r :: intoClassList rs

end

/-- Destruction events for the two parts of a container: release of the
erased-reference bookkeeping and release of the owner. -/
inductive Ev where
  | dropOwner : Ev
  | dropBorrow : Ev
deriving DecidableEq

/-- The container from lib.rs lines 116-119: exactly one owner and one
erased reference. Both fields are wrapped in ManuallyDrop in the source;
that wrapping shows up here only in the drop bookkeeping below. -/
structure OwningRef (O : Type) where
  owner : O
  borrow : EForm

/-- Model of an owner with the StableDeref guarantee: dereferencing it
yields data at a fixed address, independent of where the owner value
itself lives. -/
structure OwnerM where
  derefAddr : Nat

/-- The direct dereference of an owner under a heap assigning a value to
every address. -/
def OwnerM.deref (H : Nat → V) (o : OwnerM) : V := H o.derefAddr

/-- OwningRef::new (lib.rs lines 127-133): take the owner, form a mut
raw pointer to its dereference, and store both. -/
def OwningRef.new (o : OwnerM) : OwningRef OwnerM :=
  { owner := o, borrow := EForm.mutPtr o.derefAddr }

/-- OwningRef::new_shared (lib.rs lines 142-148): take the owner, form a
const raw pointer to its dereference, and store both. -/
def OwningRef.newShared (o : OwnerM) : OwningRef OwnerM :=
  { owner := o, borrow := EForm.constPtr o.derefAddr }

/-- OwningRef::borrow (lib.rs lines 223-225): reconstitute the stored
erased form through the shared path, scoped to the call. -/
def OwningRef.borrowRef (c : OwningRef O) : RVal :=
  reborrowConst c.borrow

/-- OwningRef::borrow_mut (lib.rs lines 228-230): reconstitute the
stored erased form through the reborrow_mut path, scoped to the call. -/
def OwningRef.borrowMutRef (c : OwningRef O) : RVal :=
  reborrowMut c.borrow

/-- Normal-return value semantics of OwningRef::map (lib.rs lines
157-185): reborrow the stored form mutably, apply f, erase the result
with into_class, and repackage with the same owner. -/
def OwningRef.map (f : RVal → RVal) (c : OwningRef O) : OwningRef O :=
  { owner := c.owner, borrow := intoClass (f (reborrowMut c.borrow)) }

/-- OwningRef::map with its exit paths made explicit (lib.rs lines
169-184). The body first moves owner and borrow out of their
ManuallyDrop wrappers into plain locals and forgets self, then calls f.
A transform that aborts abnormally mid-call is modelled by f returning
none: unwinding then drops the live plain locals in reverse declaration
order, borrow first and owner second, so the trace records those two
releases and no container is produced. On normal return the locals are
moved into the repackaged container and nothing is dropped. -/
def OwningRef.mapRun (f : RVal → Option RVal) (c : OwningRef O) :
    Option (OwningRef O) × List Ev :=
  match f (reborrowMut c.borrow) with
  | some r => (some { owner := c.owner, borrow := intoClass r }, [])
  | none => (none, [Ev.dropBorrow, Ev.dropOwner])

/-- OwningRef::try_map (lib.rs lines 189-220). Same shape as map, with f
fallible: on Ok the result is erased and repackaged with the same owner;
on Err the question-mark operator returns the error immediately,
dropping the plain locals borrow and owner on the way out, so only the
error value survives. -/
def OwningRef.tryMapRun (f : RVal → Except E RVal) (c : OwningRef O) :
    Except E (OwningRef O) × List Ev :=
  match f (reborrowMut c.borrow) with
  | Except.ok r => (Except.ok { owner := c.owner, borrow := intoClass r }, [])
  | Except.error e => (Except.error e, [Ev.dropBorrow, Ev.dropOwner])

/-- OwningRef::into_owner (lib.rs lines 249-256): drop the borrow
bookkeeping, take the owner out, forget the container, and return the
owner intact together with the trace of that one release. -/
def OwningRef.intoOwner (c : OwningRef O) : O × List Ev :=
  (c.owner, [Ev.dropBorrow])

/-- Drop glue of a struct whose two fields are owner then borrow in
declaration order: a field wrapped in ManuallyDrop is skipped by the
glue, an unwrapped field is dropped in declaration order. -/
def fieldDropTrace (ownerWrapped borrowWrapped : Bool) : List Ev :=
  (if ownerWrapped then [] else [Ev.dropOwner]) ++
    (if borrowWrapped then [] else [Ev.dropBorrow])

/-- What normal teardown of an OwningRef runs. The struct at lib.rs
lines 116-119 wraps both owner and borrow in ManuallyDrop, and the crate
declares no Drop impl for OwningRef, so dropping a container runs
exactly the field drop glue with both fields suppressed. -/
def owningRefDropTrace : List Ev := fieldDropTrace true true

/-- Dereference a reconstituted single reference under a heap: both a
shared and a mutable reference read the value at their address; a tuple
has no single pointee. -/
def readRef (H : Nat → V) : RVal → Option V
  | RVal.shared a => some (H a)
  | RVal.mutRef a => some (H a)
  | RVal.tupleV _ => none

/-! Helper lemmas shared by the claim theorems. -/

mutual

theorem containsMut_RefConst : ∀ c : ClassTy, containsMut (RefConst c) = false
  | ClassTy.constPtr _ => rfl
  | ClassTy.mutPtr _ => rfl
  | ClassTy.tupleC cs => by
      simp only [RefConst, containsMut]
      exact containsMut_RefConstList cs

theorem containsMut_RefConstList :
    ∀ cs : List ClassTy, containsMutList (RefConstList cs) = false
  | [] => rfl
  | c :: cs => by
      simp only [RefConstList, containsMutList]
      rw [containsMut_RefConst c, containsMut_RefConstList cs]
      rfl

end

mutual

theorem containsMut_RefMut : ∀ c : ClassTy, containsMut (RefMut c) = !sharedOrigin c
  | ClassTy.constPtr _ => rfl
  | ClassTy.mutPtr _ => rfl
  | ClassTy.tupleC cs => by
      simp only [RefMut, containsMut, sharedOrigin]
      exact containsMut_RefMutList cs

theorem containsMut_RefMutList :
    ∀ cs : List ClassTy, containsMutList (RefMutList cs) = !sharedOriginList cs
  | [] => rfl
  | c :: cs => by
      simp only [RefMutList, containsMutList, sharedOriginList, Bool.not_and]
      rw [containsMut_RefMut c, containsMut_RefMutList cs]

end

mutual

theorem reborrowMut_intoClass : ∀ r : RVal, reborrowMut (intoClass r) = r
  | RVal.shared _ => rfl
  | RVal.mutRef _ => rfl
  | RVal.tupleV rs => by
      simp only [intoClass, reborrowMut]
      rw [reborrowMutList_intoClassList rs]

theorem reborrowMutList_intoClassList :
    ∀ rs : List RVal, reborrowMutList (intoClassList rs) = rs
  | [] => rfl
  | r :: rs => by
      simp only [intoClassList, reborrowMutList]
      rw [reborrowMut_intoClass r, reborrowMutList_intoClassList rs]

end

theorem reborrowMutList_eq_map : ∀ es : List EForm, reborrowMutList es = es.map reborrowMut
  | [] => rfl
  | e :: es => by simp [reborrowMutList, reborrowMutList_eq_map es]

theorem reborrowConstList_eq_map :
    ∀ es : List EForm, reborrowConstList es = es.map reborrowConst
  | [] => rfl
  | e :: es => by simp [reborrowConstList, reborrowConstList_eq_map es]

theorem intoClassList_eq_map : ∀ rs : List RVal, intoClassList rs = rs.map intoClass
  | [] => rfl
  | r :: rs => by simp [intoClassList, intoClassList_eq_map rs]

/-! Claim theorems. -/

/-- Claim C1: the claim says the SharedRef marker holds for a
tuple-shaped erased form exactly when every element is Shared-origin.
The code diverges in both directions: the 1-tuple of a const raw pointer
(all elements Shared-origin) has no SharedRef impl, while a mut raw
pointer to a tuple type (an Exclusive-origin form, erased from a mutable
reference) does have one, from the impl at lib.rs line 93. -/
theorem sharedRef_marker_diverges_from_shared_origin :
    SharedRef (ClassTy.tupleC [ClassTy.constPtr (Ty.base 0)]) = false ∧
    sharedOrigin (ClassTy.tupleC [ClassTy.constPtr (Ty.base 0)]) = true ∧
    SharedRef (ClassTy.mutPtr (Ty.tuple [Ty.base 0])) = true ∧
    sharedOrigin (ClassTy.mutPtr (Ty.tuple [Ty.base 0])) = false := by
  decide

/-- Claim C2: the claim says as_owner is callable exactly on
shared-origin containers and borrow_mut exactly on Exclusive-origin
ones. Evaluating the code: as_owner is callable on the Exclusive-origin
form that is a mut raw pointer to a tuple, as_owner is not callable on
the shared-origin 1-tuple of a const pointer, and borrow_mut is callable
on a shared-origin const-pointer container. What does hold is that the
reference borrow_mut returns grants mutable access somewhere exactly
when the stored form is not shared-origin. -/
theorem asOwner_borrowMut_gating_diverges :
    asOwnerCallable (ClassTy.mutPtr (Ty.tuple [Ty.base 0])) = true ∧
    sharedOrigin (ClassTy.mutPtr (Ty.tuple [Ty.base 0])) = false ∧
    asOwnerCallable (ClassTy.tupleC [ClassTy.constPtr (Ty.base 0)]) = false ∧
    sharedOrigin (ClassTy.tupleC [ClassTy.constPtr (Ty.base 0)]) = true ∧
    borrowMutCallable (ClassTy.constPtr (Ty.base 0)) = true ∧
    sharedOrigin (ClassTy.constPtr (Ty.base 0)) = true ∧
    (∀ c : ClassTy, containsMut (RefMut c) = !sharedOrigin c) :=
  ⟨by decide, by decide, by decide, by decide, by decide, by decide, containsMut_RefMut⟩

/-- Claim C3: the claim says normal teardown releases the borrow
bookkeeping and then the owner, destroying the owner exactly once. The
code wraps both fields in ManuallyDrop and declares no Drop impl, so the
drop glue of OwningRef releases nothing: the owner destructor runs zero
times and the owner leaks. -/
theorem teardown_drop_glue_runs_nothing :
    owningRefDropTrace = [] ∧
    owningRefDropTrace.count Ev.dropOwner = 0 ∧
    owningRefDropTrace ≠ [Ev.dropBorrow, Ev.dropOwner] := by
  decide

/-- Claim C4: for every erased form with a RefClass impl, the shared
reconstitution is available and yields only shared references, even from
Exclusive-origin forms (narrowing); and a shared-origin form is never
reconstituted with mutable access by the reborrow_mut path, the one used
by both borrow_mut and map. -/
theorem shared_reconstitution_never_yields_exclusive :
    ∀ c : ClassTy, RefClass c = true →
      containsMut (RefConst c) = false ∧
      (sharedOrigin c = true → containsMut (RefMut c) = false) := by
  intro c _
  refine ⟨containsMut_RefConst c, fun hs => ?_⟩
  rw [containsMut_RefMut, hs]
  rfl

/-- Witness for C4 at two concrete forms: narrowing a mut raw pointer
yields a shared reference, and the shared-origin 1-tuple of a const
pointer gets no mutable access even through reborrow_mut. -/
theorem shared_reconstitution_never_yields_exclusive_witness :
    containsMut (RefConst (ClassTy.mutPtr (Ty.base 0))) = false ∧
    containsMut (RefMut (ClassTy.tupleC [ClassTy.constPtr (Ty.base 0)])) = false :=
  ⟨(shared_reconstitution_never_yields_exclusive
      (ClassTy.mutPtr (Ty.base 0)) (by decide)).1,
   (shared_reconstitution_never_yields_exclusive
      (ClassTy.tupleC [ClassTy.constPtr (Ty.base 0)]) (by decide)).2 (by decide)⟩

/-- Claim C5: map replaces only the erased reference and leaves the
owner untouched, so map followed by into_owner returns the exact
original owner value for any pure transform. -/
theorem map_then_intoOwner_returns_owner :
    ∀ (O : Type) (c : OwningRef O) (f : RVal → RVal),
      ((c.map f).intoOwner).1 = c.owner ∧ (c.map f).owner = c.owner :=
  fun _ _ _ => ⟨rfl, rfl⟩

/-- Claim C6: when the fallible transform succeeds everywhere with the
same result as a pure transform, try_map returns exactly the container
map would build with no drops; when it fails, try_map returns only the
error and the trace shows the borrow and the owner dropped, the owner
exactly once. -/
theorem tryMap_success_eq_map_and_failure_drops :
    ∀ (O E : Type) (c : OwningRef O) (f : RVal → Except E RVal)
      (g : RVal → RVal) (e : E),
      ((∀ r, f r = Except.ok (g r)) →
        c.tryMapRun f = (Except.ok (c.map g), [])) ∧
      (f (reborrowMut c.borrow) = Except.error e →
        c.tryMapRun f = (Except.error e, [Ev.dropBorrow, Ev.dropOwner]) ∧
        (c.tryMapRun f).2.count Ev.dropOwner = 1 ∧
        (c.tryMapRun f).2.count Ev.dropBorrow = 1) := by
  intro O E c f g e
  constructor
  · intro hfg
    simp [OwningRef.tryMapRun, OwningRef.map, hfg]
  · intro hf
    have h2 : c.tryMapRun f = (Except.error e, [Ev.dropBorrow, Ev.dropOwner]) := by
      simp [OwningRef.tryMapRun, hf]
    refine ⟨h2, ?_, ?_⟩ <;> rw [h2] <;> rfl

/-- Witness for C6 on a concrete container: an always-Ok identity
transform reproduces the map result, and an always-failing transform
returns only the error value 7 with both parts dropped. -/
theorem tryMap_success_eq_map_and_failure_drops_witness :
    (OwningRef.mk 0 (EForm.mutPtr 3) : OwningRef Nat).tryMapRun
        (fun r => (Except.ok r : Except Nat RVal)) =
      (Except.ok ((OwningRef.mk 0 (EForm.mutPtr 3) : OwningRef Nat).map (fun r => r)), []) ∧
    (OwningRef.mk 0 (EForm.mutPtr 3) : OwningRef Nat).tryMapRun
        (fun _ => (Except.error 7 : Except Nat RVal)) =
      (Except.error 7, [Ev.dropBorrow, Ev.dropOwner]) :=
  ⟨(tryMap_success_eq_map_and_failure_drops Nat Nat (OwningRef.mk 0 (EForm.mutPtr 3))
      (fun r => Except.ok r) (fun r => r) 7).1 (fun _ => rfl),
   ((tryMap_success_eq_map_and_failure_drops Nat Nat (OwningRef.mk 0 (EForm.mutPtr 3))
      (fun _ => Except.error 7) (fun r => r) 7).2 rfl).1⟩

/-- Claim C7: map moves the owner and the erased reference into plain
locals and forgets the container before invoking the transform, so on an
abnormal exit of the transform the owner is dropped exactly once (and no
container is produced), while on normal return nothing is dropped and
the container is repackaged with the same owner. -/
theorem map_abort_drops_owner_exactly_once :
    ∀ (O : Type) (c : OwningRef O) (f : RVal → Option RVal),
      (f (reborrowMut c.borrow) = none →
        c.mapRun f = (none, [Ev.dropBorrow, Ev.dropOwner]) ∧
        (c.mapRun f).2.count Ev.dropOwner = 1) ∧
      (∀ r, f (reborrowMut c.borrow) = some r →
        c.mapRun f = (some (OwningRef.mk c.owner (intoClass r)), []) ∧
        (c.mapRun f).2.count Ev.dropOwner = 0) := by
  intro O c f
  constructor
  · intro h
    have h2 : c.mapRun f = (none, [Ev.dropBorrow, Ev.dropOwner]) := by
      simp [OwningRef.mapRun, h]
    exact ⟨h2, by rw [h2]; rfl⟩
  · intro r h
    have h2 : c.mapRun f = (some (OwningRef.mk c.owner (intoClass r)), []) := by
      simp [OwningRef.mapRun, h]
    exact ⟨h2, by rw [h2]; rfl⟩

/-- Witness for C7 on a concrete container: an aborting transform leaves
the trace with the owner dropped once, and a normal transform repackages
the container with no drops. -/
theorem map_abort_drops_owner_exactly_once_witness :
    (OwningRef.mk 0 (EForm.mutPtr 3) : OwningRef Nat).mapRun (fun _ => none) =
      (none, [Ev.dropBorrow, Ev.dropOwner]) ∧
    (OwningRef.mk 0 (EForm.mutPtr 3) : OwningRef Nat).mapRun
        (fun _ => some (RVal.shared 4)) =
      (some (OwningRef.mk 0 (EForm.constPtr 4)), []) :=
  ⟨((map_abort_drops_owner_exactly_once Nat (OwningRef.mk 0 (EForm.mutPtr 3))
      (fun _ => none)).1 rfl).1,
   ((map_abort_drops_owner_exactly_once Nat (OwningRef.mk 0 (EForm.mutPtr 3))
      (fun _ => some (RVal.shared 4))).2 (RVal.shared 4) rfl).1⟩

/-- Claim C8: constructing a container in either mode from an owner with
the stable-address guarantee and then borrowing yields a reference whose
pointee is the direct dereference of the owner. -/
theorem construct_then_borrow_reads_owner_deref :
    ∀ (V : Type) (H : Nat → V) (o : OwnerM),
      readRef H (OwningRef.new o).borrowRef = some (o.deref H) ∧
      readRef H (OwningRef.newShared o).borrowRef = some (o.deref H) :=
  fun _ _ _ => ⟨rfl, rfl⟩

/-- Claim C9: mapping twice equals mapping the composed transform: the
resulting containers hold the same erased address and their borrow
results are pointer-equal. -/
theorem map_compositional_pointer_equal :
    ∀ (O : Type) (c : OwningRef O) (f g : RVal → RVal),
      ((c.map f).map g).borrow = (c.map (fun r => g (f r))).borrow ∧
      ((c.map f).map g).borrowRef = (c.map (fun r => g (f r))).borrowRef := by
  intro O c f g
  have h : ((c.map f).map g).borrow = (c.map (fun r => g (f r))).borrow := by
    show intoClass (g (reborrowMut (intoClass (f (reborrowMut c.borrow))))) =
      intoClass (g (f (reborrowMut c.borrow)))
    rw [reborrowMut_intoClass]
  refine ⟨h, ?_⟩
  simp only [OwningRef.borrowRef]
  rw [h]

/-- Claim C10: for tuple forms of arity 1 to 16, erase and both
reconstitutions act elementwise in the tuple order with no cross-slot
interaction: slot i of the result is the image of slot i of the
argument. -/
theorem tuple_elementwise_erase_reconstitute :
    ∀ (es : List EForm) (rs : List RVal) (i : Nat),
      1 ≤ es.length → es.length ≤ 16 →
      ∀ (hi : i < es.length) (hr : i < rs.length),
      reborrowMut (EForm.tupleE es) = RVal.tupleV (es.map reborrowMut) ∧
      reborrowConst (EForm.tupleE es) = RVal.tupleV (es.map reborrowConst) ∧
      intoClass (RVal.tupleV rs) = EForm.tupleE (rs.map intoClass) ∧
      (es.map reborrowMut).get ⟨i, by simpa using hi⟩ = reborrowMut (es.get ⟨i, hi⟩) ∧
      (es.map reborrowConst).get ⟨i, by simpa using hi⟩ = reborrowConst (es.get ⟨i, hi⟩) ∧
      (rs.map intoClass).get ⟨i, by simpa using hr⟩ = intoClass (rs.get ⟨i, hr⟩) := by
  intro es rs i h1 h16 hi hr
  refine ⟨?_, ?_, ?_, ?_, ?_, ?_⟩
  · simp only [reborrowMut, reborrowMutList_eq_map]
  · simp only [reborrowConst, reborrowConstList_eq_map]
  · simp only [intoClass, intoClassList_eq_map]
  · simp [List.get_eq_getElem]
  · simp [List.get_eq_getElem]
  · simp [List.get_eq_getElem]

/-- Witness for C10 on a concrete 2-tuple and a concrete 1-tuple,
checking slot 1 of the reconstitution and slot 0 of the erasure. -/
theorem tuple_elementwise_erase_reconstitute_witness :
    reborrowMut (EForm.tupleE [EForm.constPtr 0, EForm.mutPtr 1]) =
      RVal.tupleV ([EForm.constPtr 0, EForm.mutPtr 1].map reborrowMut) ∧
    ([EForm.constPtr 0, EForm.mutPtr 1].map reborrowMut).get ⟨1, by decide⟩ =
      reborrowMut ([EForm.constPtr 0, EForm.mutPtr 1].get ⟨1, by decide⟩) ∧
    ([RVal.shared 5, RVal.mutRef 6].map intoClass).get ⟨0, by decide⟩ =
      intoClass ([RVal.shared 5, RVal.mutRef 6].get ⟨0, by decide⟩) := by
  have h := tuple_elementwise_erase_reconstitute
    [EForm.constPtr 0, EForm.mutPtr 1] [RVal.shared 5, RVal.mutRef 6] 1
    (by decide) (by decide) (by decide) (by decide)
  have h0 := tuple_elementwise_erase_reconstitute
    [EForm.constPtr 0, EForm.mutPtr 1] [RVal.shared 5, RVal.mutRef 6] 0
    (by decide) (by decide) (by decide) (by decide)
  exact ⟨h.1, h.2.2.2.1, h0.2.2.2.2.2⟩

end Nrental

